import Mathlib

/-!
Verification of `colabfit_mcp.py`, a two-tool MCP server for the ColabFit
materials database: a paginated dataset search (`dataset_query`) and a dataset
file download (`download_dataset`).

The Python code is shallowly embedded below.  The remote HTTP service is an
abstract parameter: for the query tool it is a function from the posted payload
to either a decoded JSON list of records or an exception description; for the
download tool it is a function from the requested URL to either an HTTP
response (status code and body chunks) or an exception description.  The local
filesystem is an association list from paths to byte lists.  Python machine
behaviour that matters is modelled exactly: `//` is floor division and raises
`ZeroDivisionError` on a zero divisor, and list slicing `l[a:b]` normalises
negative indices by adding `len(l)` and clips both indices to `[0, len(l)]`.
-/

namespace ColabfitMcp

/-- The full parameter list of `dataset_query` (lines 8-29 of the source).
Optional Python parameters defaulting to `None` become `Option`; `page` and
`page_size` are Python ints, hence `Int`. -/
structure QueryArgs where
  name : Option String
  authors : Option String
  description : Option String
  elements : Option (List String)
  exact_elements : Bool
  doi : Option String
  min_co : Option Int
  max_co : Option Int
  min_elements : Option Int
  max_elements : Option Int
  min_atoms : Option Int
  max_atoms : Option Int
  property_types : Option (List String)
  license : Option (List String)
  equilibrium : Option Bool
  given_sort_by : Option String
  given_sort_direction : String
  software : Option (List String)
  methods_text_filter : Option (List String)
  page : Int
  page_size : Int
deriving Repr, DecidableEq

/-- The Python defaults of `dataset_query`'s parameters. -/
def defaultArgs : QueryArgs where
  name := none
  authors := none
  description := none
  elements := none
  exact_elements := false
  doi := none
  min_co := none
  max_co := none
  min_elements := none
  max_elements := none
  min_atoms := none
  max_atoms := none
  property_types := none
  license := none
  equilibrium := none
  given_sort_by := none
  given_sort_direction := "descending"
  software := none
  methods_text_filter := none
  page := 1
  page_size := 10

/-- The JSON body posted to the remote query endpoint: `args_dict = locals()`
followed by `args_dict.pop('page')` and `args_dict.pop('page_size')`
(lines 95-97), so every filter field and neither pagination field. -/
structure Payload where
  name : Option String
  authors : Option String
  description : Option String
  elements : Option (List String)
  exact_elements : Bool
  doi : Option String
  min_co : Option Int
  max_co : Option Int
  min_elements : Option Int
  max_elements : Option Int
  min_atoms : Option Int
  max_atoms : Option Int
  property_types : Option (List String)
  license : Option (List String)
  equilibrium : Option Bool
  given_sort_by : Option String
  given_sort_direction : String
  software : Option (List String)
  methods_text_filter : Option (List String)
deriving Repr, DecidableEq

/-- Build the request payload from the call's arguments: all filter fields are
copied, `page` and `page_size` are dropped (lines 95-97). -/
def buildPayload (args : QueryArgs) : Payload where
  name := args.name
  authors := args.authors
  description := args.description
  elements := args.elements
  exact_elements := args.exact_elements
  doi := args.doi
  min_co := args.min_co
  max_co := args.max_co
  min_elements := args.min_elements
  max_elements := args.max_elements
  min_atoms := args.min_atoms
  max_atoms := args.max_atoms
  property_types := args.property_types
  license := args.license
  equilibrium := args.equilibrium
  given_sort_by := args.given_sort_by
  given_sort_direction := args.given_sort_direction
  software := args.software
  methods_text_filter := args.methods_text_filter

/-- Outcome of `requests.post(...)` followed by `response.json()`: either the
decoded JSON array of records, or an exception (network failure, decode
failure, ...) carrying its description. -/
inductive RemoteOutcome (α : Type) where
  | ok (records : List α)
  | err (msg : String)
deriving Repr, DecidableEq

/-- Python's exception message for integer division by zero. -/
def zeroDivisionMsg : String := "integer division or modulo by zero"

/-- Python `a // b` on ints: floor division, raising `ZeroDivisionError`
when `b = 0`. -/
def pyFloorDiv (a b : Int) : Except String Int :=
  if b = 0 then Except.error zeroDivisionMsg else Except.ok (Int.fdiv a b)

/-- Normalise one Python slice index for a list of length `n`: a negative
index has `n` added and is clipped below at `0`; a nonnegative index is
clipped above at `n`. -/
def pySliceIndex (n : Nat) (i : Int) : Nat :=
  if i < 0 then ((n : Int) + i).toNat else min i.toNat n

/-- Python list slicing `l[a:b]` with int indices: the elements whose position
lies in `[pySliceIndex n a, pySliceIndex n b)`. -/
def pySlice {α : Type} (l : List α) (a b : Int) : List α :=
  (l.take (pySliceIndex l.length b)).drop (pySliceIndex l.length a)

/-- The dictionary returned by `dataset_query`: on success the keys
`Success=True`, `Results`, `Result Length`, `Page`, `Page Size`, `Total Pages`
(line 104); on a caught exception the keys `Success=False` and `Results`
holding the exception (line 106). -/
inductive QueryResult (α : Type) where
  | success (results : List α) (result_length : Nat) (page : Int)
      (page_size : Int) (total_pages : Int)
  | failure (error : String)
deriving Repr, DecidableEq

/-- The body of the `try:` block of `dataset_query` (lines 100-104): post the
payload, decode, compute `total_pages = (len(response_json) + page_size - 1)
// page_size`, slice `response_json[start:end]`.  Any exception is the
`Except.error` case.  (`start` and `end` are computed just before the `try:`
but cannot raise, so they are computed here.) -/
def dataset_query_body {α : Type} (args : QueryArgs)
    (remote : Payload → RemoteOutcome α) : Except String (List α × Int) :=
  let start := (args.page - 1) * args.page_size
  let stop := start + args.page_size
  match remote (buildPayload args) with
  | RemoteOutcome.err msg => Except.error msg
  | RemoteOutcome.ok response_json =>
    match pyFloorDiv ((response_json.length : Int) + args.page_size - 1)
        args.page_size with
    | Except.error msg => Except.error msg
    | Except.ok total_pages =>
      Except.ok (pySlice response_json start stop, total_pages)

/-- `dataset_query` (lines 8-107): run the body; a success yields the full
envelope, a caught exception yields `{"Success": False, "Results": e}`. -/
def dataset_query {α : Type} (args : QueryArgs)
    (remote : Payload → RemoteOutcome α) : QueryResult α :=
  match dataset_query_body args remote with
  | Except.ok (results, total_pages) =>
    QueryResult.success results results.length args.page args.page_size
      total_pages
  | Except.error e => QueryResult.failure e

/-- Outcome of `requests.get(url, stream=True, ...)`: an HTTP response with a
status code and a body delivered as chunks of bytes, or an exception carrying
its description. -/
inductive GetOutcome where
  | resp (status_code : Nat) (chunks : List (List Nat))
  | exn (msg : String)
deriving Repr, DecidableEq

/-- The local filesystem: an association list from paths to file contents. -/
def FileSystem : Type := List (String × List Nat)

instance : DecidableEq FileSystem := by
  unfold FileSystem
  infer_instance

/-- Create or truncate the file at `path` and set its contents (what
`open(saved_file, 'wb')` plus the writes amount to). -/
def fsWrite (fs : FileSystem) (path : String) (contents : List Nat) :
    FileSystem :=
  (path, contents) :: fs.filter (fun entry => entry.1 ≠ path)

/-- The write loop of lines 132-134: open the destination for writing, which
truncates it, then append each streamed chunk in order. -/
def writeChunks (fs : FileSystem) (path : String) (chunks : List (List Nat)) :
    FileSystem :=
  chunks.foldl
    (fun acc chunk =>
      let current := ((acc.find? (fun entry => entry.1 = path)).map
        Prod.snd).getD []
      fsWrite acc path (current ++ chunk))
    (fsWrite fs path [])

/-- The dictionary returned by `download_dataset`: `{"Success": True,
"Downloaded File": saved_file}` (line 135) or `{"Success": False, "Error": e}`
(line 137). -/
inductive DownloadResult where
  | success (downloaded_file : String)
  | failure (error : String)
deriving Repr, DecidableEq

/-- Python truthiness of the `dataset_id` argument (line 127): `None` and the
empty string are falsy, any other string is truthy. -/
def pyTruthy (dataset_id : Option String) : Bool :=
  match dataset_id with
  | none => false
  | some s => !s.isEmpty

/-- Python's `f"{dataset_id}"`: `None` renders as `"None"`. -/
def pyStr (dataset_id : Option String) : String :=
  match dataset_id with
  | none => "None"
  | some s => s

/-- The filename used in the download URL (lines 121-126): `<id>.tar.gz` for
the parquet format, the bare `<id>` otherwise. -/
def request_filename (dataset_id format : String) : String :=
  if format = "parquet" then dataset_id ++ ".tar.gz" else dataset_id

/-- The destination path `saved_file` (lines 120-126):
`<download_dir>/<id>.tar.gz` for the parquet format,
`<download_dir>/<id>.tar.xz` otherwise. -/
def saved_file_path (download_dir dataset_id format : String) : String :=
  if format = "parquet" then download_dir ++ "/" ++ (dataset_id ++ ".tar.gz")
  else download_dir ++ "/" ++ dataset_id ++ ".tar.xz"

/-- The URL fetched by the download tool (line 129):
`https://materials.colabfit.org/mcp/dataset-download/<format>/<filename>`. -/
def download_url (dataset_id format : String) : String :=
  "https://materials.colabfit.org/mcp/dataset-download/" ++ format ++ "/"
    ++ request_filename dataset_id format

/-- `raise_for_status` (line 131) raises exactly on client-error and
server-error status codes. -/
def raisesForStatus (status_code : Nat) : Prop :=
  400 ≤ status_code ∧ status_code < 600

instance (status_code : Nat) : Decidable (raisesForStatus status_code) := by
  unfold raisesForStatus
  infer_instance

/-- The observable effect of one `download_dataset` call: the returned value
(`none` is Python's implicit `None` return), the filesystem afterwards, and
the list of URLs fetched. -/
structure DownloadEffect where
  result : Option DownloadResult
  fs : FileSystem
  fetched : List String
deriving DecidableEq

/-- `download_dataset` (lines 109-137).  `download_dir` abstracts
`str(Path.home() / "Downloads")`; `get` abstracts the streaming GET.  The
destination path is computed first; if `dataset_id` is falsy nothing else
happens and `None` is returned implicitly; otherwise the URL is fetched, a
raising `raise_for_status` or a network exception is caught and returned as a
failure dictionary with the filesystem untouched, and on an acceptable status
the chunks are written to the destination and a success dictionary returned. -/
def download_dataset (dataset_id : Option String) (format : String)
    (download_dir : String) (get : String → GetOutcome) (fs : FileSystem) :
    DownloadEffect :=
  let saved_file := saved_file_path download_dir (pyStr dataset_id) format
  if pyTruthy dataset_id then
    let url := download_url (pyStr dataset_id) format
    match get url with
    | GetOutcome.exn msg =>
      { result := some (DownloadResult.failure msg), fs := fs,
        fetched := [url] }
    | GetOutcome.resp status_code chunks =>
      if raisesForStatus status_code then
        { result := some (DownloadResult.failure
            ("HTTP error " ++ toString status_code ++ " for url: " ++ url)),
          fs := fs, fetched := [url] }
      else
        { result := some (DownloadResult.success saved_file),
          fs := writeChunks fs saved_file chunks, fetched := [url] }
  else
    { result := none, fs := fs, fetched := [] }

/-- Spec-side description of a results page: the contiguous slice
`l[s : s + k]` of the full list, clipped to the available length. -/
def listSlice {α : Type} (l : List α) (s k : Nat) : List α :=
  (l.take (s + k)).drop s

/-! ### Helper lemmas -/

lemma take_min_length {α : Type} (l : List α) (k : Nat) :
    l.take (min k l.length) = l.take k := by
  rcases le_total k l.length with h | h
  · rw [min_eq_left h]
  · rw [min_eq_right h, List.take_of_length_le h, List.take_length]

lemma drop_min_of_length_le {α : Type} (t : List α) (k n : Nat)
    (h : t.length ≤ n) : t.drop (min k n) = t.drop k := by
  rcases le_total k n with hk | hk
  · rw [min_eq_left hk]
  · rw [min_eq_right hk, List.drop_eq_nil_of_le h,
      List.drop_eq_nil_of_le (h.trans hk)]

/-- With nonnegative bounds, Python slicing is plain take-and-drop (both of
which already clip at the list's length). -/
lemma pySlice_nonneg {α : Type} (l : List α) (a b : Int) (ha : 0 ≤ a)
    (hb : 0 ≤ b) : pySlice l a b = (l.take b.toNat).drop a.toNat := by
  unfold pySlice pySliceIndex
  rw [if_neg (not_lt.2 ha), if_neg (not_lt.2 hb), take_min_length]
  exact drop_min_of_length_le _ _ _
    (by rw [List.length_take]; exact min_le_right _ _)

/-- A Python slice whose stop index is `0` is empty. -/
lemma pySlice_stop_zero {α : Type} (l : List α) (a : Int) :
    pySlice l a 0 = [] := by
  unfold pySlice pySliceIndex
  rw [if_neg (by omega : ¬ (0:Int) < 0)]
  simp

/-- Python's `(n + page_size - 1) // page_size` is the ceiling of
`n / page_size` when `page_size ≥ 1`. -/
lemma fdiv_total_pages (n : Nat) (ps : Int) (hps : 1 ≤ ps) :
    Int.fdiv ((n : Int) + ps - 1) ps = ((n ⌈/⌉ ps.toNat : Nat) : Int) := by
  obtain ⟨psN, rfl⟩ : ∃ m : Nat, ps = (m : Int) :=
    ⟨ps.toNat, (Int.toNat_of_nonneg (by omega)).symm⟩
  have h1 : ((n : Int) + (psN : Int) - 1) = ((n + psN - 1 : Nat) : Int) := by
    omega
  have h2 : ((psN : Int)).toNat = psN := Int.toNat_natCast psN
  rw [h1, Int.fdiv_eq_ediv _ (by omega), ← Int.natCast_div, h2,
    Nat.ceilDiv_eq_add_pred_div]

/-- Generic evaluation of `dataset_query` when the remote call decodes to
`records` and `page_size` is nonzero. -/
lemma dataset_query_ok {α : Type} (args : QueryArgs)
    (remote : Payload → RemoteOutcome α) (records : List α)
    (hr : remote (buildPayload args) = RemoteOutcome.ok records)
    (hps : args.page_size ≠ 0) :
    dataset_query args remote =
      QueryResult.success
        (pySlice records ((args.page - 1) * args.page_size)
          ((args.page - 1) * args.page_size + args.page_size))
        (pySlice records ((args.page - 1) * args.page_size)
          ((args.page - 1) * args.page_size + args.page_size)).length
        args.page args.page_size
        (Int.fdiv ((records.length : Int) + args.page_size - 1)
          args.page_size) := by
  simp only [dataset_query, dataset_query_body, hr, pyFloorDiv, if_neg hps]

/-- Generic evaluation of `dataset_query` when the remote call raises. -/
lemma dataset_query_err {α : Type} (args : QueryArgs)
    (remote : Payload → RemoteOutcome α) (msg : String)
    (hr : remote (buildPayload args) = RemoteOutcome.err msg) :
    dataset_query args remote = QueryResult.failure msg := by
  simp only [dataset_query, dataset_query_body, hr]

/-! ### Concrete fixtures used by the witnesses -/

/-- A remote endpoint whose decoded response is always the 25-record list
`[0, ..., 24]`. -/
def remote25 : Payload → RemoteOutcome Nat :=
  fun _ => RemoteOutcome.ok (List.range 25)

/-- A remote endpoint that always raises. -/
def remoteBoom : Payload → RemoteOutcome Nat :=
  fun _ => RemoteOutcome.err "connection refused"

/-- Default arguments with the given `page` and `page_size`. -/
def argsPage (p ps : Int) : QueryArgs :=
  { defaultArgs with page := p, page_size := ps }

/-! ### Claims about `dataset_query` -/

/-- C1: for every `dataset_query` call with `page ≥ 1` and `page_size ≥ 1`
whose remote call returns a result list `records`, the envelope reports
`total_pages = ⌈records.length / page_size⌉`, `results` is the contiguous
slice `records[(page-1)*page_size : (page-1)*page_size + page_size]` clipped
to the available length, and `result_length = results.length`. -/
theorem dq_pagination_correct {α : Type} (args : QueryArgs)
    (remote : Payload → RemoteOutcome α) (records : List α)
    (hp : 1 ≤ args.page) (hps : 1 ≤ args.page_size)
    (hr : remote (buildPayload args) = RemoteOutcome.ok records) :
    dataset_query args remote =
      QueryResult.success
        (listSlice records ((args.page - 1) * args.page_size).toNat
          args.page_size.toNat)
        (listSlice records ((args.page - 1) * args.page_size).toNat
          args.page_size.toNat).length
        args.page args.page_size
        ((records.length ⌈/⌉ args.page_size.toNat : Nat) : Int) := by
  have hs0 : (0:Int) ≤ (args.page - 1) * args.page_size :=
    mul_nonneg (by omega) (by omega)
  rw [dataset_query_ok args remote records hr (by omega),
    pySlice_nonneg _ _ _ hs0 (by omega),
    fdiv_total_pages records.length args.page_size hps,
    Int.toNat_add hs0 (by omega)]
  rfl

theorem dq_pagination_correct_witness :
    (1 ≤ (argsPage 3 10).page ∧ 1 ≤ (argsPage 3 10).page_size ∧
      remote25 (buildPayload (argsPage 3 10)) =
        RemoteOutcome.ok (List.range 25)) ∧
    dataset_query (argsPage 3 10) remote25 =
      QueryResult.success [20, 21, 22, 23, 24] 5 3 10 3 :=
  ⟨⟨by decide, by decide, rfl⟩,
    (dq_pagination_correct (argsPage 3 10) remote25 (List.range 25)
      (by decide) (by decide) rfl).trans (by decide)⟩

/-- C2: every failure of the network call, the decoding, or the slicing is
caught and surfaces as a `Success = False` dictionary holding the error, and
`dataset_query` always returns a result dictionary (either the success
envelope or the failure dictionary), never an unhandled exception. -/
theorem dq_error_boundary {α : Type} (args : QueryArgs)
    (remote : Payload → RemoteOutcome α) :
    (∀ msg, remote (buildPayload args) = RemoteOutcome.err msg →
      dataset_query args remote = QueryResult.failure msg) ∧
    (∀ msg, dataset_query_body args remote = Except.error msg →
      dataset_query args remote = QueryResult.failure msg) ∧
    ((∃ res tp, dataset_query args remote =
        QueryResult.success res res.length args.page args.page_size tp) ∨
      ∃ msg, dataset_query args remote = QueryResult.failure msg) := by
  refine ⟨fun msg h => dataset_query_err args remote msg h,
    fun msg h => by simp only [dataset_query, h], ?_⟩
  cases hb : dataset_query_body args remote with
  | error msg => exact Or.inr ⟨msg, by simp only [dataset_query, hb]⟩
  | ok v =>
    obtain ⟨res, tp⟩ := v
    exact Or.inl ⟨res, tp, by simp only [dataset_query, hb]⟩

theorem dq_error_boundary_witness :
    remoteBoom (buildPayload defaultArgs) =
      RemoteOutcome.err "connection refused" ∧
    dataset_query defaultArgs remoteBoom =
      QueryResult.failure "connection refused" :=
  ⟨rfl, (dq_error_boundary defaultArgs remoteBoom).1 "connection refused" rfl⟩

/-- C3: when `page ≥ 1`, `page_size ≥ 1` and `(page-1)*page_size` is at least
the remote list's length, the envelope is still a success with empty results,
`result_length = 0`, and `total_pages` computed against the full remote
count. -/
theorem dq_out_of_range_page {α : Type} (args : QueryArgs)
    (remote : Payload → RemoteOutcome α) (records : List α)
    (hp : 1 ≤ args.page) (hps : 1 ≤ args.page_size)
    (hr : remote (buildPayload args) = RemoteOutcome.ok records)
    (hout : (records.length : Int) ≤ (args.page - 1) * args.page_size) :
    dataset_query args remote =
      QueryResult.success [] 0 args.page args.page_size
        ((records.length ⌈/⌉ args.page_size.toNat : Nat) : Int) := by
  have hs0 : (0:Int) ≤ (args.page - 1) * args.page_size :=
    mul_nonneg (by omega) (by omega)
  rw [dataset_query_ok args remote records hr (by omega),
    pySlice_nonneg _ _ _ hs0 (by omega),
    fdiv_total_pages records.length args.page_size hps,
    List.drop_eq_nil_of_le (by rw [List.length_take]; omega)]
  rfl

theorem dq_out_of_range_page_witness :
    (1 ≤ (argsPage 4 10).page ∧ 1 ≤ (argsPage 4 10).page_size ∧
      remote25 (buildPayload (argsPage 4 10)) =
        RemoteOutcome.ok (List.range 25) ∧
      (((List.range 25).length : Nat) : Int) ≤
        ((argsPage 4 10).page - 1) * (argsPage 4 10).page_size) ∧
    dataset_query (argsPage 4 10) remote25 =
      QueryResult.success [] 0 4 10 3 :=
  ⟨⟨by decide, by decide, rfl, by decide⟩,
    (dq_out_of_range_page (argsPage 4 10) remote25 (List.range 25)
      (by decide) (by decide) rfl (by decide)).trans (by decide)⟩

/-- C8: `dataset_query` is deterministic in its arguments and the remote
response: two remote endpoints that return the same outcome for the posted
payload yield identical envelopes. -/
theorem dq_deterministic {α : Type} (args : QueryArgs)
    (remote1 remote2 : Payload → RemoteOutcome α)
    (h : remote1 (buildPayload args) = remote2 (buildPayload args)) :
    dataset_query args remote1 = dataset_query args remote2 := by
  unfold dataset_query dataset_query_body
  rw [h]

theorem dq_deterministic_witness :
    remote25 (buildPayload defaultArgs) =
      (fun p => if p.exact_elements then RemoteOutcome.err "boom"
        else RemoteOutcome.ok (List.range 25)) (buildPayload defaultArgs) ∧
    dataset_query defaultArgs remote25 =
      dataset_query defaultArgs
        (fun p => if p.exact_elements then RemoteOutcome.err "boom"
          else RemoteOutcome.ok (List.range 25)) :=
  ⟨rfl, dq_deterministic defaultArgs remote25 _ rfl⟩

/-- C9: with `page_size = 0`, even when the remote call and decoding succeed,
the `total_pages` floor division raises `ZeroDivisionError`, which is caught
at the boundary, so the call returns the failure dictionary, not a success
envelope. -/
theorem dq_zero_page_size_failure {α : Type} (args : QueryArgs)
    (remote : Payload → RemoteOutcome α) (records : List α)
    (hps : args.page_size = 0)
    (hr : remote (buildPayload args) = RemoteOutcome.ok records) :
    dataset_query args remote = QueryResult.failure zeroDivisionMsg := by
  simp [dataset_query, dataset_query_body, hr, pyFloorDiv, hps]

theorem dq_zero_page_size_failure_witness :
    ((argsPage 1 0).page_size = 0 ∧
      remote25 (buildPayload (argsPage 1 0)) =
        RemoteOutcome.ok (List.range 25)) ∧
    dataset_query (argsPage 1 0) remote25 =
      QueryResult.failure zeroDivisionMsg :=
  ⟨⟨rfl, rfl⟩,
    dq_zero_page_size_failure (argsPage 1 0) remote25 (List.range 25) rfl rfl⟩

/-- C10: with `page = 0` and `page_size ≥ 1`, the slice bounds evaluate to
`-page_size` and `0`, so on a nonempty remote list the call still succeeds
with empty results and `result_length = 0` — neither the first page nor an
error. -/
theorem dq_page_zero_empty {α : Type} (args : QueryArgs)
    (remote : Payload → RemoteOutcome α) (records : List α)
    (hp : args.page = 0) (hps : 1 ≤ args.page_size)
    (hr : remote (buildPayload args) = RemoteOutcome.ok records)
    (_hN : 1 ≤ records.length) :
    (args.page - 1) * args.page_size = -args.page_size ∧
    (args.page - 1) * args.page_size + args.page_size = 0 ∧
    dataset_query args remote =
      QueryResult.success [] 0 args.page args.page_size
        ((records.length ⌈/⌉ args.page_size.toNat : Nat) : Int) := by
  have h1 : (args.page - 1) * args.page_size = -args.page_size := by
    rw [hp]; ring
  have h2 : (args.page - 1) * args.page_size + args.page_size = 0 := by
    rw [h1]; ring
  refine ⟨h1, h2, ?_⟩
  rw [dataset_query_ok args remote records hr (by omega), h2,
    pySlice_stop_zero, fdiv_total_pages records.length args.page_size hps]
  rfl

theorem dq_page_zero_empty_witness :
    ((argsPage 0 10).page = 0 ∧ 1 ≤ (argsPage 0 10).page_size ∧
      remote25 (buildPayload (argsPage 0 10)) =
        RemoteOutcome.ok (List.range 25) ∧ 1 ≤ (List.range 25).length) ∧
    ((argsPage 0 10).page - 1) * (argsPage 0 10).page_size =
      -(argsPage 0 10).page_size ∧
    ((argsPage 0 10).page - 1) * (argsPage 0 10).page_size +
      (argsPage 0 10).page_size = 0 ∧
    dataset_query (argsPage 0 10) remote25 =
      QueryResult.success [] 0 0 10 3 := by
  have h := dq_page_zero_empty (argsPage 0 10) remote25 (List.range 25)
    rfl (by decide) rfl (by decide)
  exact ⟨⟨rfl, by decide, rfl, by decide⟩, h.1, h.2.1, h.2.2.trans (by decide)⟩

/-- A nonempty string is Python-truthy. -/
lemma pyTruthy_some_of_ne (s : String) (h : s ≠ "") :
    pyTruthy (some s) = true := by
  unfold pyTruthy
  rw [Bool.not_eq_true', ← Bool.not_eq_true]
  intro hc
  exact h ((String.isEmpty_iff s).mp hc)

/-- C4: the request payload contains every filter field of the call and does
not contain the pagination fields: it is unchanged by any choice of `page`
and `page_size`, and each of the nineteen filter fields is copied verbatim
from the arguments. -/
theorem payload_excludes_pagination (args : QueryArgs) (p ps : Int) :
    buildPayload { args with page := p, page_size := ps } = buildPayload args ∧
    (buildPayload args).name = args.name ∧
    (buildPayload args).authors = args.authors ∧
    (buildPayload args).description = args.description ∧
    (buildPayload args).elements = args.elements ∧
    (buildPayload args).exact_elements = args.exact_elements ∧
    (buildPayload args).doi = args.doi ∧
    (buildPayload args).min_co = args.min_co ∧
    (buildPayload args).max_co = args.max_co ∧
    (buildPayload args).min_elements = args.min_elements ∧
    (buildPayload args).max_elements = args.max_elements ∧
    (buildPayload args).min_atoms = args.min_atoms ∧
    (buildPayload args).max_atoms = args.max_atoms ∧
    (buildPayload args).property_types = args.property_types ∧
    (buildPayload args).license = args.license ∧
    (buildPayload args).equilibrium = args.equilibrium ∧
    (buildPayload args).given_sort_by = args.given_sort_by ∧
    (buildPayload args).given_sort_direction = args.given_sort_direction ∧
    (buildPayload args).software = args.software ∧
    (buildPayload args).methods_text_filter = args.methods_text_filter :=
  ⟨rfl, rfl, rfl, rfl, rfl, rfl, rfl, rfl, rfl, rfl, rfl, rfl, rfl, rfl, rfl,
    rfl, rfl, rfl, rfl, rfl⟩

/-- C5: for a nonempty `dataset_id` the destination path is computed
deterministically from `dataset_id` and `format`: `<dir>/<id>.tar.gz` for
`"parquet"`, `<dir>/<id>.tar.xz` for any other format; whenever the download
succeeds, the file it reports is exactly that path; and in particular
`DS_abc123_0` maps to `<dir>/DS_abc123_0.tar.gz` and
`<dir>/DS_abc123_0.tar.xz`. -/
theorem download_target_path (download_dir dataset_id format : String)
    (get : String → GetOutcome) (fs : FileSystem) (f : String)
    (hid : dataset_id ≠ "") :
    saved_file_path download_dir dataset_id "parquet" =
      download_dir ++ "/" ++ dataset_id ++ ".tar.gz" ∧
    (format ≠ "parquet" →
      saved_file_path download_dir dataset_id format =
        download_dir ++ "/" ++ dataset_id ++ ".tar.xz") ∧
    ((download_dataset (some dataset_id) format download_dir get fs).result =
        some (DownloadResult.success f) →
      f = saved_file_path download_dir dataset_id format) ∧
    saved_file_path download_dir "DS_abc123_0" "parquet" =
      download_dir ++ "/DS_abc123_0.tar.gz" ∧
    saved_file_path download_dir "DS_abc123_0" "original" =
      download_dir ++ "/DS_abc123_0.tar.xz" := by
  refine ⟨?_, ?_, ?_, ?_, ?_⟩
  · show download_dir ++ "/" ++ (dataset_id ++ ".tar.gz") =
      download_dir ++ "/" ++ dataset_id ++ ".tar.gz"
    simp only [String.append_assoc]
  · intro h
    unfold saved_file_path
    rw [if_neg h]
  · intro h
    have ht : pyTruthy (some dataset_id) = true :=
      pyTruthy_some_of_ne dataset_id hid
    cases hget : get (download_url dataset_id format) with
    | exn msg =>
      simp [download_dataset, pyStr, ht, hget] at h
    | resp status chunks =>
      by_cases hst : raisesForStatus status
      · simp [download_dataset, pyStr, ht, hget, hst] at h
      · simp [download_dataset, pyStr, ht, hget, hst] at h
        exact h.symm
  · show download_dir ++ "/" ++ ("DS_abc123_0" ++ ".tar.gz") =
      download_dir ++ "/DS_abc123_0.tar.gz"
    simp only [String.append_assoc]
    congr 1
  · show download_dir ++ "/" ++ "DS_abc123_0" ++ ".tar.xz" =
      download_dir ++ "/DS_abc123_0.tar.xz"
    simp only [String.append_assoc]
    congr 1

/-- C6: when `dataset_id` is nonempty and the GET receives a response with a
client- or server-error status, `raise_for_status` raises before the file is
opened, so the filesystem is unchanged, and the exception is caught and
returned as a failure dictionary. -/
theorem download_http_error_no_write
    (dataset_id format download_dir : String) (get : String → GetOutcome)
    (fs : FileSystem) (status_code : Nat) (chunks : List (List Nat))
    (hid : dataset_id ≠ "")
    (hget : get (download_url dataset_id format) =
      GetOutcome.resp status_code chunks)
    (hstatus : raisesForStatus status_code) :
    (download_dataset (some dataset_id) format download_dir get fs).fs = fs ∧
    ∃ msg,
      (download_dataset (some dataset_id) format download_dir get fs).result =
        some (DownloadResult.failure msg) := by
  have ht : pyTruthy (some dataset_id) = true :=
    pyTruthy_some_of_ne dataset_id hid
  refine ⟨?_, "HTTP error " ++ toString status_code ++ " for url: "
    ++ download_url dataset_id format, ?_⟩
  · simp [download_dataset, pyStr, ht, hget, hstatus]
  · simp [download_dataset, pyStr, ht, hget, hstatus]

/-- C7: when `dataset_id` is absent or empty, the operation fetches nothing,
writes nothing, and returns Python's implicit `None` rather than a
success/error dictionary, whatever the `format` argument is. -/
theorem download_empty_id_noop (dataset_id : Option String)
    (format download_dir : String) (get : String → GetOutcome)
    (fs : FileSystem) (hid : pyTruthy dataset_id = false) :
    (download_dataset dataset_id format download_dir get fs).result = none ∧
    (download_dataset dataset_id format download_dir get fs).fetched = [] ∧
    (download_dataset dataset_id format download_dir get fs).fs = fs := by
  simp [download_dataset, hid]

theorem download_target_path_witness :
    ("DS_abc123_0" : String) ≠ "" ∧
    (saved_file_path "/home/user/Downloads" "DS_abc123_0" "parquet" =
      "/home/user/Downloads" ++ "/" ++ "DS_abc123_0" ++ ".tar.gz" ∧
    (("original" : String) ≠ "parquet" →
      saved_file_path "/home/user/Downloads" "DS_abc123_0" "original" =
        "/home/user/Downloads" ++ "/" ++ "DS_abc123_0" ++ ".tar.xz") ∧
    ((download_dataset (some "DS_abc123_0") "original" "/home/user/Downloads"
        (fun _ => GetOutcome.resp 200 [[7]]) []).result =
        some (DownloadResult.success
          "/home/user/Downloads/DS_abc123_0.tar.xz") →
      "/home/user/Downloads/DS_abc123_0.tar.xz" =
        saved_file_path "/home/user/Downloads" "DS_abc123_0" "original") ∧
    saved_file_path "/home/user/Downloads" "DS_abc123_0" "parquet" =
      "/home/user/Downloads" ++ "/DS_abc123_0.tar.gz" ∧
    saved_file_path "/home/user/Downloads" "DS_abc123_0" "original" =
      "/home/user/Downloads" ++ "/DS_abc123_0.tar.xz") :=
  ⟨by decide,
    download_target_path "/home/user/Downloads" "DS_abc123_0" "original"
      (fun _ => GetOutcome.resp 200 [[7]]) []
      "/home/user/Downloads/DS_abc123_0.tar.xz" (by decide)⟩

theorem download_http_error_no_write_witness :
    (("DS_abc123_0" : String) ≠ "" ∧
      (fun _ => GetOutcome.resp 404 [[1]] : String → GetOutcome)
        (download_url "DS_abc123_0" "parquet") = GetOutcome.resp 404 [[1]] ∧
      raisesForStatus 404) ∧
    ((download_dataset (some "DS_abc123_0") "parquet" "/home/user/Downloads"
        (fun _ => GetOutcome.resp 404 [[1]]) [("keep", [9])]).fs =
      [("keep", [9])] ∧
    ∃ msg,
      (download_dataset (some "DS_abc123_0") "parquet" "/home/user/Downloads"
        (fun _ => GetOutcome.resp 404 [[1]]) [("keep", [9])]).result =
        some (DownloadResult.failure msg)) :=
  ⟨⟨by decide, rfl, by decide⟩,
    download_http_error_no_write "DS_abc123_0" "parquet"
      "/home/user/Downloads" (fun _ => GetOutcome.resp 404 [[1]])
      [("keep", [9])] 404 [[1]] (by decide) rfl (by decide)⟩

theorem download_empty_id_noop_witness :
    pyTruthy (some "") = false ∧
    ((download_dataset (some "") "parquet" "/home/user/Downloads"
        (fun _ => GetOutcome.exn "unreachable") []).result = none ∧
      (download_dataset (some "") "parquet" "/home/user/Downloads"
        (fun _ => GetOutcome.exn "unreachable") []).fetched = [] ∧
      (download_dataset (some "") "parquet" "/home/user/Downloads"
        (fun _ => GetOutcome.exn "unreachable") []).fs = []) :=
  ⟨rfl,
    download_empty_id_noop (some "") "parquet" "/home/user/Downloads"
      (fun _ => GetOutcome.exn "unreachable") [] rfl⟩

end ColabfitMcp
